import Mathlib

/-
Verification of the unit-of-measure conversion library (src/src/lib.rs).

The library defines a trait `Unit` with associated data type `Data` and base
unit `Base`, methods `factor`, `value`, `new`, and derived methods `to`,
`to_base`, `from_base`, plus a macro `unit!` generating wrapper types with
arithmetic operators.  We embed a single base-unit family shallowly: the
numeric representation `Data` is modelled by the rationals (exact arithmetic;
the Rust tests instantiate `Data = f64`), a unit tag is either the base unit
of the family or a derived unit carrying its declared factor, and the factor
the family declares for its own base unit is passed explicitly (the Rust
source declares it per base type, e.g. `unit!(Meters, Self, f64, 1.0)`).
Quantities carry their tag and raw value; in Rust the tag is the static type.
-/

namespace UnitRs

/-- A unit tag within one base-unit family: either the base unit itself, or a
derived unit with its declared scale factor. -/
inductive UTag where
  | base : UTag
  | derived (f : ℚ) : UTag
deriving DecidableEq

/-- `factor()` from the trait instance: the base unit reports the factor the
family declares for it (`bf`), a derived unit reports its own declared
factor. -/
def UTag.factor (bf : ℚ) : UTag → ℚ
  | .base => bf
  | .derived f => f

/-- A quantity: the raw numeric payload together with its unit tag.  In the
Rust source the tag is the wrapper type generated by `unit!` and `value`
reads the single stored field. -/
structure Qty where
  tag : UTag
  value : ℚ
deriving DecidableEq

/-- `new(data)` from the macro-generated impl: wraps the raw value,
unmodified, under the given tag. -/
def Qty.new (t : UTag) (d : ℚ) : Qty := ⟨t, d⟩

/-- `to_base(self)`: `Self::Base::new(self.value() / Self::factor())`. -/
def to_base (bf : ℚ) (q : Qty) : Qty :=
  Qty.new .base (q.value / q.tag.factor bf)

/-- `from_base::<T>(base)` invoked on type `s`, constructing type `t`:
`T::new(base.value() * Self::factor())`.  Note the source multiplies by the
factor of the invoking type `s` (Rust `Self`), not of the constructed type
`t`. -/
def from_base (bf : ℚ) (s t : UTag) (b : Qty) : Qty :=
  Qty.new t (b.value * s.factor bf)

/-- `to::<T>(self)`: `T::from_base(self.to_base())`; the invoking type of
`from_base` here is the target `t` itself. -/
def to_unit (bf : ℚ) (q : Qty) (t : UTag) : Qty :=
  from_base bf t t (to_base bf q)

/-- The macro-generated `From<T>` impl: `$typename::from_base(unit.to_base())`,
i.e. `from_base` invoked on the destination type `x`, constructing `x`. -/
def from_impl (bf : ℚ) (x : UTag) (q : Qty) : Qty :=
  from_base bf x x (to_base bf q)

/-- Modelled from the spec (section 4.1) for comparison in claim C9: the
protocol description says `convert_to` scales the base value by the factor of
the Target type, so a spec-faithful `from_base` would multiply by the factor
of the constructed type. -/
def from_base_target (bf : ℚ) (t : UTag) (b : Qty) : Qty :=
  Qty.new t (b.value * t.factor bf)

/-- Macro-generated `Add<T>` for interconvertible `T`:
`Self::new(self.value() + rhs.to::<$typename>().value())`. -/
def add (bf : ℚ) (x y : Qty) : Qty :=
  Qty.new x.tag (x.value + (to_unit bf y x.tag).value)

/-- Macro-generated `Sub<T>`:
`Self::new(self.value() - rhs.to::<$typename>().value())`. -/
def sub (bf : ℚ) (x y : Qty) : Qty :=
  Qty.new x.tag (x.value - (to_unit bf y x.tag).value)

/-- Macro-generated `Mul<T>`:
`Self::new(self.value() * rhs.to::<$typename>().value())`. -/
def mul (bf : ℚ) (x y : Qty) : Qty :=
  Qty.new x.tag (x.value * (to_unit bf y x.tag).value)

/-- Macro-generated `Div<T>`:
`Self::new(self.value() / rhs.to::<$typename>().value())`. -/
def div (bf : ℚ) (x y : Qty) : Qty :=
  Qty.new x.tag (x.value / (to_unit bf y x.tag).value)

/-- Macro-generated `Add<$datatype>` against the bare representation:
`Self::new(self.value() + rhs)`. -/
def add_data (x : Qty) (d : ℚ) : Qty := Qty.new x.tag (x.value + d)

/-- Macro-generated `Sub<$datatype>`: `Self::new(self.value() - rhs)`. -/
def sub_data (x : Qty) (d : ℚ) : Qty := Qty.new x.tag (x.value - d)

/-- Macro-generated `Mul<$datatype>`: `Self::new(self.value() * rhs)`. -/
def mul_data (x : Qty) (d : ℚ) : Qty := Qty.new x.tag (x.value * d)

/-- Macro-generated `Div<$datatype>`: `Self::new(self.value() / rhs)`. -/
def div_data (x : Qty) (d : ℚ) : Qty := Qty.new x.tag (x.value / d)

/-- The factor the test module declares for the Meters base unit:
`unit!(Meters, Self, f64, 1.0)`. -/
def metersBase : ℚ := 1

/-- `unit!(Meters, Self, f64, 1.0)`: Meters is its own base. -/
def Meters : UTag := .base

/-- `unit!(Centimeters, Meters, f64, 100.0)`. -/
def Centimeters : UTag := .derived 100

/-- `unit!(Yards, Meters, f64, 1.09361)`. -/
def Yards : UTag := .derived (109361 / 100000)

/-- The factor the test module declares for the Feet base unit:
`unit!(Feet, Self, f64, 1.0)`. -/
def feetBase : ℚ := 1

/-- `unit!(Feet, Self, f64, 1.0)`: Feet is its own base. -/
def Feet : UTag := .base

/-- `unit!(Inches, Feet, f64, 12.0)`. -/
def Inches : UTag := .derived 12

/-- Claim C1: for every unit tag `x`, every target tag `t` sharing its base
unit family and representation, and every raw value `v`, the conversion
`X::new(v).to::<T>()` equals `T::new((v / X::factor()) * T::factor())`,
i.e. `convert_to` computes `Target::new(self.to_base().value() *
Target::factor())`. -/
theorem C1_convert_to (bf : ℚ) (x t : UTag) (v : ℚ) :
    to_unit bf (Qty.new x v) t = Qty.new t (v / x.factor bf * t.factor bf)
      ∧ to_unit bf (Qty.new x v) t
        = Qty.new t ((to_base bf (Qty.new x v)).value * t.factor bf) :=
  ⟨rfl, rfl⟩

/-- Claim C2: for every unit tag `x` and raw value `v`, `X::new(v).to_base()`
produces the base-unit quantity `Base::new(v / X::factor())`. -/
theorem C2_to_base (bf : ℚ) (x : UTag) (v : ℚ) :
    to_base bf (Qty.new x v) = Qty.new UTag.base (v / x.factor bf) :=
  rfl

/-- Claim C10: for every unit tag `t` and raw value `v`, construction stores
the raw value unmodified under the tag `t` and `value` returns exactly the
stored payload: `X::new(v).value() == v`. -/
theorem C10_new_value (t : UTag) (v : ℚ) :
    (Qty.new t v).value = v ∧ (Qty.new t v).tag = t :=
  ⟨rfl, rfl⟩

/-- Claim C6: for every unit tag `t`, raw value `v` and bare value `d` of the
representation, each of the four operators applied to `X::new(v)` and `d`
returns `X::new(v op d)`, a quantity with the same tag. -/
theorem C6_scalar_ops (t : UTag) (v d : ℚ) :
    add_data (Qty.new t v) d = Qty.new t (v + d)
      ∧ sub_data (Qty.new t v) d = Qty.new t (v - d)
      ∧ mul_data (Qty.new t v) d = Qty.new t (v * d)
      ∧ div_data (Qty.new t v) d = Qty.new t (v / d) :=
  ⟨rfl, rfl, rfl, rfl⟩

/-- Claim C5: each of the four operators applied to a left operand and an
interconvertible right operand first converts the right operand into the left
operand tag via the conversion protocol, then applies the raw-value
operation, producing a quantity tagged by the left operand; in particular
`Centimeters(100.0).to::<Meters>() + Meters(1.0)` is a Meters quantity with
value `2.0`. -/
theorem C5_ops_convert_rhs (bf : ℚ) (x y : Qty) :
    add bf x y = Qty.new x.tag (x.value + (to_unit bf y x.tag).value)
      ∧ sub bf x y = Qty.new x.tag (x.value - (to_unit bf y x.tag).value)
      ∧ mul bf x y = Qty.new x.tag (x.value * (to_unit bf y x.tag).value)
      ∧ div bf x y = Qty.new x.tag (x.value / (to_unit bf y x.tag).value)
      ∧ add metersBase (to_unit metersBase (Qty.new Centimeters 100) Meters)
          (Qty.new Meters 1) = Qty.new Meters 2 := by
  refine ⟨rfl, rfl, rfl, rfl, ?_⟩
  norm_num [add, to_unit, to_base, from_base, Qty.new, UTag.factor, Meters,
    Centimeters, metersBase]

/-- Claim C7: converting a quantity to its own unit tag returns the value
unchanged, provided the factor of that tag is nonzero. -/
theorem C7_identity (bf : ℚ) (u : UTag) (v : ℚ) (h : u.factor bf ≠ 0) :
    to_unit bf (Qty.new u v) u = Qty.new u v := by
  simp only [to_unit, to_base, from_base, Qty.new]
  exact congrArg (Qty.mk u) (div_mul_cancel₀ v h)

/-- Witness for C7 at Centimeters with value 42 in the Meters family. -/
theorem C7_identity_witness :
    Centimeters.factor metersBase ≠ 0
      ∧ to_unit metersBase (Qty.new Centimeters 42) Centimeters
          = Qty.new Centimeters 42 :=
  ⟨by decide, C7_identity metersBase Centimeters 42 (by decide)⟩

/-- Claim C4: for pairwise-interconvertible tags `u`, `v`, `w` in one family
with the intermediate factor nonzero, converting `u` to `v` and then the
result to `w` equals converting `u` directly to `w` (exactly, in the rational
model of the representation). -/
theorem C4_composition (bf : ℚ) (u v w : UTag) (x : ℚ)
    (h : v.factor bf ≠ 0) :
    to_unit bf (to_unit bf (Qty.new u x) v) w
      = to_unit bf (Qty.new u x) w := by
  have hc : x / u.factor bf * v.factor bf / v.factor bf = x / u.factor bf :=
    mul_div_cancel_right₀ _ h
  simp [to_unit, to_base, from_base, Qty.new, hc]

/-- Witness for C4: Centimeters to Centimeters to Meters at value 200. -/
theorem C4_composition_witness :
    Centimeters.factor metersBase ≠ 0
      ∧ to_unit metersBase
          (to_unit metersBase (Qty.new Yards 200) Centimeters) Meters
        = to_unit metersBase (Qty.new Yards 200) Meters :=
  ⟨by decide, C4_composition metersBase Yards Centimeters Meters 200 (by decide)⟩

/-- Claim C3 as stated is false on the code: with a base unit whose declared
factor is 2 and a unit of factor 1 (both nonzero), the round trip
`U::new(1).to_base().to::<U>()` yields 1/2, not 1, because converting a
base-tagged quantity divides by the base unit declared factor again. -/
theorem C3_counterexample :
    (to_unit 2 (to_base 2 (Qty.new (UTag.derived 1) 1)) (UTag.derived 1)).value
      ≠ 1 := by
  norm_num [to_unit, to_base, from_base, Qty.new, UTag.factor]

/-- Claim C3 amended: for every unit tag `u` with nonzero factor, the round
trip through the base yields `v` divided by the base unit declared factor; it
equals `v` exactly when that declared factor is 1, as it is for every base
unit declared in this repository (Meters and Feet both declare 1.0). -/
theorem C3_roundtrip (bf : ℚ) (u : UTag) (v : ℚ) (h : u.factor bf ≠ 0) :
    (to_unit bf (to_base bf (Qty.new u v)) u).value = v / bf := by
  cases u with
  | base =>
      simp only [to_unit, to_base, from_base, Qty.new, UTag.factor] at h ⊢
      rw [div_right_comm, div_mul_cancel₀ _ h]
  | derived f =>
      simp only [to_unit, to_base, from_base, Qty.new, UTag.factor] at h ⊢
      rw [div_right_comm, div_mul_cancel₀ _ h]

/-- Witness for C3 amended: Inches round trip at value 24 in the Feet family,
where the base factor is 1, recovers 24. -/
theorem C3_roundtrip_witness :
    Inches.factor feetBase ≠ 0
      ∧ (to_unit feetBase (to_base feetBase (Qty.new Inches 24)) Inches).value
          = 24 / feetBase :=
  ⟨by decide, C3_roundtrip feetBase Inches 24 (by decide)⟩

/-- Claim C8 as stated is false on the code: the result of
`Centimeters(100.0).to::<Meters>()` observably depends on the numeric factor
declared for the base unit Meters — two runs that differ only in that
declared value (1 versus 2) produce different quantities, because `to`
multiplies the base value by the factor of the target tag, which for a base
target is its own declared factor. -/
theorem C8_counterexample :
    to_unit 1 (Qty.new Centimeters 100) Meters
      ≠ to_unit 2 (Qty.new Centimeters 100) Meters := by
  norm_num [to_unit, to_base, from_base, Qty.new, UTag.factor, Meters,
    Centimeters, Qty.mk.injEq]

/-- Claim C8 amended: the declared base factor is immaterial only for the
operations that never apply it asymmetrically — conversions between two
non-base tags, the base unit identity conversion (for nonzero declared
factors), and `to_base` of a non-base quantity give identical results across
two runs that differ only in the declared base factor; conversions with
exactly one base endpoint do depend on it. -/
theorem C8_base_factor_dependence (bf₁ bf₂ f g v : ℚ)
    (h₁ : bf₁ ≠ 0) (h₂ : bf₂ ≠ 0) :
    to_unit bf₁ (Qty.new (UTag.derived f) v) (UTag.derived g)
        = to_unit bf₂ (Qty.new (UTag.derived f) v) (UTag.derived g)
      ∧ to_unit bf₁ (Qty.new UTag.base v) UTag.base
          = to_unit bf₂ (Qty.new UTag.base v) UTag.base
      ∧ to_base bf₁ (Qty.new (UTag.derived f) v)
          = to_base bf₂ (Qty.new (UTag.derived f) v) := by
  refine ⟨rfl, ?_, rfl⟩
  simp only [to_unit, to_base, from_base, Qty.new, UTag.factor]
  rw [div_mul_cancel₀ _ h₁, div_mul_cancel₀ _ h₂]

/-- Witness for C8 amended at base factors 3 and 5, derived factors 100 and
4, value 7. -/
theorem C8_base_factor_dependence_witness :
    (3 : ℚ) ≠ 0 ∧ (5 : ℚ) ≠ 0
      ∧ (to_unit 3 (Qty.new (UTag.derived 100) 7) (UTag.derived 4)
            = to_unit 5 (Qty.new (UTag.derived 100) 7) (UTag.derived 4)
          ∧ to_unit 3 (Qty.new UTag.base 7) UTag.base
              = to_unit 5 (Qty.new UTag.base 7) UTag.base
          ∧ to_base 3 (Qty.new (UTag.derived 100) 7)
              = to_base 5 (Qty.new (UTag.derived 100) 7)) :=
  ⟨by decide, by decide,
    C8_base_factor_dependence 3 5 100 4 7 (by decide) (by decide)⟩

/-- Claim C9: `from_base` invoked on tag `s` constructing tag `t` scales the
base value by the factor of the invoking tag `s`, not of the constructed tag
`t`; this coincides with the spec-intended Target-factor scaling exactly in
the self-invoked form `t = s`, which is the only form `to` and the generated
`From` impl use — and the two scalings demonstrably differ otherwise
(Centimeters-invoked construction of Meters scales by 100, not 1). -/
theorem C9_from_base_scaling :
    (∀ bf s t b, from_base bf s t b = Qty.new t (b.value * s.factor bf))
      ∧ (∀ bf q t, to_unit bf q t = from_base bf t t (to_base bf q))
      ∧ (∀ bf x q, from_impl bf x q = from_base bf x x (to_base bf q))
      ∧ (∀ bf t b, from_base bf t t b = from_base_target bf t b)
      ∧ from_base metersBase Centimeters Meters (Qty.new Meters 1)
          ≠ from_base_target metersBase Meters (Qty.new Meters 1) := by
  refine ⟨fun _ _ _ _ => rfl, fun _ _ _ => rfl, fun _ _ _ => rfl,
    fun _ _ _ => rfl, ?_⟩
  norm_num [from_base, from_base_target, Qty.new, UTag.factor, Meters,
    Centimeters, metersBase, Qty.mk.injEq]

end UnitRs
